import Mathlib

/-!
# piecewise: fallible construction by two-continuation factories

A shallow embedding of `mz/piecewise/factory.hpp`, `mz/piecewise/helpers.hpp`
and of the types of `test/multifail.cpp`.

Conventions of the embedding.

* A C++ callable that is generic in its result (`auto`) becomes a Lean
  function that is polymorphic in a result type `R`.  Every factory of the
  repository returns the result of the continuation it calls, so the
  continuation-passing form is kept as it is written in the source.
* A variadic argument pack `args...` becomes one value of a product type.
* `int` becomes `Int`: the code only compares it with zero and stores it.
* `std::string` becomes `String`; `empty()` is `String.isEmpty`.
* A callback that returns `void` and writes captured variables becomes a
  state transformer, by instantiating `R` with a function type on the state.
-/

namespace Piecewise

universe u v w r

/-! ## Builder -/

/-- Modelled from the spec: `mz/piecewise/builder.hpp` is not among the
sources.  A builder is "a construction function paired with its captured
arguments"; nothing is evaluated when it is created. -/
structure Builder (F : Type u) (Args : Type v) where
  callback : F
  args : Args

/-- Modelled from the spec: `builder(fn, args...)` returns a value capturing
`fn` and `args` "with no evaluation performed yet". -/
def builder {F : Type u} {Args : Type v} (callback : F) (args : Args) : Builder F Args :=
  { callback := callback, args := args }

/-- Modelled from the spec: `construct()` "evaluates `fn(args...)` and returns
its result by value". -/
def Builder.construct {Args : Type v} {T : Type w} (b : Builder (Args → T) Args) : T :=
  b.callback b.args

/-- Modelled from the spec: `construct(onSuccess, onFail)` on a builder of a
factory is the dispatch `factory(onSuccess, onFail, args...)`. -/
def Builder.construct2 {S : Type u} {F : Type v} {Args : Type w} {R : Type r}
    (b : Builder (S → F → Args → R) Args) (on_success : S) (on_fail : F) : R :=
  b.callback on_success on_fail b.args

/-! ## Constructor helpers (`helpers.hpp`) -/

/-- The call operator `ConstructorHelper<T>::ParenthesizedConstructor::operator()`:
`return T(std::forward<Args>(args)...)`.  The parameter `ctor` is the
constructor `T(...)` that overload resolution selects. -/
def ParenthesizedConstructor {Args T : Type} (ctor : Args → T) : Args → T :=
  fun args => ctor args

/-- The call operator `ConstructorHelper<T>::BracedConstructor::operator()`:
`return T{std::forward<Args>(args)...}`.  The parameter `braced` is the brace
initialisation `T{...}`. -/
def BracedConstructor {Args T : Type} (braced : Args → T) : Args → T :=
  fun args => braced args

/-- The static member `ConstructorHelper<T>::constructor()`. -/
def ConstructorHelper.constructor {Args T : Type} (ctor : Args → T) : Args → T :=
  ParenthesizedConstructor ctor

/-- The static member `ConstructorHelper<T>::braced_constructor()`. -/
def ConstructorHelper.braced_constructor {Args T : Type} (braced : Args → T) : Args → T :=
  BracedConstructor braced

/-- Modelled from the spec: `mz/piecewise/constructors.hpp` (the base class
`mp::Constructors<A>` of the test) is not among the sources.  The spec says a
type "may expose `constructor()` (ordered-argument construction)"; this is the
same callable as `ConstructorHelper<T>::constructor()`. -/
def Constructors.constructor {Args T : Type} (ctor : Args → T) : Args → T :=
  ParenthesizedConstructor ctor

/-! ## The trivial factory (`factory.hpp`) -/

/-- The call operator `Factory<T>::operator()(on_success, on_fail, args...)`.  The second
parameter is unnamed in the source and never used.  `braced` is the brace
initialisation `T{...}` of the constructed type. -/
def Factory {Args T : Type} {F : Type v} {R : Type r} (braced : Args → T)
    (on_success : Builder (Args → T) Args → R) (_ : F) (args : Args) : R :=
  on_success (builder (fun args => braced args) args)

/-- The variable template `factory<T>`, a value of type `Factory<T>`. -/
def factory {Args T : Type} {F : Type v} {R : Type r} (braced : Args → T) :
    (Builder (Args → T) Args → R) → F → Args → R :=
  Factory braced

/-- The function `wrapper<T>(args...)`:
`return builder(factory<T>, std::forward<Args>(args)...)`. -/
def wrapper {Args T : Type} {F : Type v} {R : Type r} (braced : Args → T) (args : Args) :
    Builder ((Builder (Args → T) Args → R) → F → Args → R) Args :=
  builder (factory braced) args

/-! ## The types of the test (`test/multifail.cpp`) -/

/-- The two error types declared inside class `A`. -/
inductive A.Error where
  | StringEmptyError
  | IntNegativeError
  deriving DecidableEq, Repr

/-- The static member `description` of each error type. -/
def A.Error.description : A.Error → String
  | .StringEmptyError => "String is empty"
  | .IntNegativeError => "Int is negative"

/-- Class `A`: the private members `a_string` and `an_int`. -/
structure A where
  a_string : String
  an_int : Int
  deriving DecidableEq, Repr

/-- The accessor `A::get_a_string()`. -/
def A.get_a_string (self : A) : String := self.a_string

/-- The accessor `A::get_an_int()`. -/
def A.get_an_int (self : A) : Int := self.an_int

/-- The private constructor `A(std::string a_string_, int an_int_)`. -/
def A.ctor : String × Int → A
  | (a_string_, an_int_) => { a_string := a_string_, an_int := an_int_ }

/-- The static member `A::constructor()`, inherited from `mp::Constructors<A>`. -/
def A.constructor : String × Int → A :=
  Constructors.constructor A.ctor

/-- The lambda returned by `A::factory()`. -/
def A.factory {R : Type r} (on_success : Builder (String × Int → A) (String × Int) → R)
    (on_fail : A.Error → R) : String × Int → R
  | (a_string, an_int) =>
    if a_string.isEmpty then on_fail A.Error.StringEmptyError
    else if an_int < 0 then on_fail A.Error.IntNegativeError
    else on_success (builder A.constructor (a_string, an_int))

/-- Struct `B`. -/
structure B where
  int_a : Int
  int_b : Int
  deriving DecidableEq, Repr

/-- Brace initialisation `B{a, b}`: the members in declaration order. -/
def B.braced : Int × Int → B
  | (a, b) => { int_a := a, int_b := b }

/-- Class template `Aggregate<T, U, V>` of the test: the members `t`, `u`, `v`. -/
structure Aggregate (T U V : Type) where
  t : T
  u : U
  v : V
  deriving DecidableEq, Repr

/-- The accessor `Aggregate::get_t()`. -/
def Aggregate.get_t {T U V : Type} (self : Aggregate T U V) : T := self.t

/-- The accessor `Aggregate::get_u()`. -/
def Aggregate.get_u {T U V : Type} (self : Aggregate T U V) : U := self.u

/-- The accessor `Aggregate::get_v()`. -/
def Aggregate.get_v {T U V : Type} (self : Aggregate T U V) : V := self.v

/-- The private constructor
`Aggregate(TBuilder t_builder, UBuilder u_builder, VBuilder v_builder)`, which
finalizes the three builders in member order. -/
def Aggregate.ctor {TA UA VA T U V : Type} (t_builder : Builder (TA → T) TA)
    (u_builder : Builder (UA → U) UA) (v_builder : Builder (VA → V) VA) : Aggregate T U V :=
  { t := t_builder.construct, u := u_builder.construct, v := v_builder.construct }

/-! ## Type-bound helpers that dispatch a factory (`helpers.hpp`) -/

/-- The static member `BuilderHelper<T>::builder(args...)`:
`return piecewise::builder(T::factory(), std::forward<Args>(args)...)`.
The parameter `T_factory` is `T::factory()`. -/
def BuilderHelper.builder {S : Type u} {F : Type v} {Args : Type w} {R : Type r}
    (T_factory : S → F → Args → R) (args : Args) : Builder (S → F → Args → R) Args :=
  Piecewise.builder T_factory args

/-- The type `std::variant<T, ErrorTypes...>`: either the `T` alternative or one of the
error alternatives, the latter collected in the sum type `E`. -/
inductive Variant (T E : Type) where
  | value (t : T)
  | error (e : E)
  deriving DecidableEq, Repr

/-- The static member `VariantHelper<T>::variant<ErrorTypes...>(args...)`: the factory
of `T` is dispatched on `args`; the success continuation finalizes the builder into the
`T` alternative, the failure continuation stores the error. -/
def VariantHelper.variant {CArgs T E Args : Type}
    (T_factory : (Builder (CArgs → T) CArgs → Variant T E) → (E → Variant T E) → Args →
      Variant T E)
    (args : Args) : Variant T E :=
  (builder T_factory args).construct2
    (fun b => Variant.value b.construct)
    (fun error => Variant.error error)

/-! ## Aggregate multi-construction -/

/-- Modelled from the spec: the argument-capture utilities (`arg_forwarder.hpp`,
`forward_tuple.hpp`) are not among the sources; their contract is "holds N values of
heterogeneous types".  A list of values of the types listed in the index. -/
inductive HList : List Type → Type 1 where
  | nil : HList []
  | cons {B : Type} {Bs : List Type} (head : B) (tail : HList Bs) : HList (B :: Bs)

/-- Modelled from the spec: `mz/piecewise/multifail.hpp` is not among the sources.
The child builders handed to `multifactory`: child `i` is a builder of a
factory whose success continuation receives a resolved builder of type
`Bs[i]`, and whose failure continuation receives an error of the union `E`
of all the children's error kinds. -/
inductive Children (R : Type r) (E : Type) : List Type → Type (max 1 r) where
  | nil : Children R E []
  | cons {Args B : Type} {Bs : List Type}
      (child : Builder ((B → R) → (E → R) → Args → R) Args)
      (rest : Children R E Bs) : Children R E (B :: Bs)

/-- Modelled from the spec: `mz/piecewise/multifail.hpp` is not among the
sources.  This is the transition function of the state machine of the spec.
The call `dispatch on_fail rest done` is the state `Pending(i)`: `rest` holds
the children `i, i+1, ..` still to resolve and `done` carries the `i` builders
resolved so far.  From `Pending(i)` child `i` is dispatched; if it succeeds with
builder `b` the machine advances to `Pending(i+1)` carrying `b` alongside the
earlier ones; if it fails with `error` the machine is in `Failed(error)`, which
is delivered to the caller's `on_fail` untouched, and no later child is
dispatched.  From `Pending(K)` (no child left) the machine is `Done`. -/
def multifactory.dispatch {R : Type r} {E : Type} (on_fail : E → R) :
    {Bs : List Type} → Children R E Bs → (HList Bs → R) → R
  | _, Children.nil, done => done HList.nil
  | _, Children.cons child rest, done =>
    child.construct2
      (fun b => multifactory.dispatch on_fail rest (fun bs => done (HList.cons b bs)))
      (fun error => on_fail error)

/-- Modelled from the spec: `mz/piecewise/multifail.hpp` is not among the
sources.  `multifactory<Agg>` run on `(on_success, on_fail, children...)`: the
state machine starts in `Pending(0)`; `Done` delivers to `on_success` a single
builder whose finalization passes the resolved child builders, in order, to the
construction step `ctor` of the aggregate type. -/
def multifactory {R : Type r} {E : Type} {Agg : Type u} {Bs : List Type} (ctor : HList Bs → Agg)
    (on_success : Builder (HList Bs → Agg) (HList Bs) → R) (on_fail : E → R)
    (children : Children R E Bs) : R :=
  multifactory.dispatch on_fail children (fun bs => on_success (builder ctor bs))

/-- Modelled from the spec: `mz/piecewise/aggregate.hpp` (`mp::Aggregate<T>`,
the friend through which the engine reaches the private constructor of the
aggregate) is not among the sources.  It applies the private constructor of
`Aggregate<T, U, V>` to the three resolved builders. -/
def Aggregate.constructor {TA UA VA T U V : Type} :
    HList [Builder (TA → T) TA, Builder (UA → U) UA, Builder (VA → V) VA] → Aggregate T U V
  | HList.cons t_builder (HList.cons u_builder (HList.cons v_builder HList.nil)) =>
    Aggregate.ctor t_builder u_builder v_builder

/-! ## Error handler composition -/

/-- Modelled from the spec: `mz/piecewise/lambda_overload.hpp` is not among the
sources.  One callback of a handler: the error kind of its declared parameter and
its body. -/
structure Callback (K E : Type) (R : Type r) where
  kind : K
  run : E → R

/-- Modelled from the spec: `mz/piecewise/lambda_overload.hpp` is not among the
sources.  The callbacks whose declared kind is the kind of the error value `e`. -/
def matching {K E : Type} {R : Type r} [DecidableEq K] (kindOf : E → K) (cbs : List (Callback K E R))
    (e : E) : List (Callback K E R) :=
  cbs.filter (fun cb => decide (cb.kind = kindOf e))

/-- Modelled from the spec: `mz/piecewise/lambda_overload.hpp` is not among the
sources.  The static obligation on a handler: every error value of the union has
exactly one callback of its kind.  A handler that misses a kind, or that is
ambiguous for one, does not build. -/
def Covers {K E : Type} {R : Type r} [DecidableEq K] (kindOf : E → K) (cbs : List (Callback K E R)) :
    Prop :=
  ∀ e : E, (matching kindOf cbs e).length = 1

/-- Modelled from the spec: `mz/piecewise/lambda_overload.hpp` is not among the
sources.  `handler(cb1, .., cbN)` is a single callable that routes an error
value, by its kind, to the one callback whose declared kind matches. -/
def handler {K E : Type} {R : Type r} [DecidableEq K] (kindOf : E → K) (cbs : List (Callback K E R))
    (covers : Covers kindOf cbs) : E → R :=
  fun e =>
    have nonempty : matching kindOf cbs e ≠ [] := fun h =>
      Nat.noConfusion ((congrArg List.length h).symm.trans (covers e))
    ((matching kindOf cbs e).head nonempty).run e

/-! ## The scenario of the test -/

/-- The captured variables `success`, `failure1`, `failure2` of the scenario. -/
structure Flags where
  success : Bool
  failure1 : Bool
  failure2 : Bool
  deriving DecidableEq, Repr

/-- The resolved builder of an `A`. -/
abbrev ABuilder : Type := Builder (String × Int → A) (String × Int)

/-- The resolved builder of a `B`. -/
abbrev BBuilder : Type := Builder (Int × Int → B) (Int × Int)

/-- The builder delivered on success of `multifactory<Aggregate<A, A, B>>`. -/
abbrev AggregateBuilder : Type 1 :=
  Builder (HList [ABuilder, ABuilder, BBuilder] → Aggregate A A B)
    (HList [ABuilder, ABuilder, BBuilder])

/-- The three child builders of the scenario. -/
def multifail_children {R : Type r} (t_args u_args : String × Int) (v_args : Int × Int) :
    Children R A.Error [ABuilder, ABuilder, BBuilder] :=
  Children.cons (builder A.factory t_args)
    (Children.cons (builder A.factory u_args)
      (Children.cons (builder (factory B.braced) v_args) Children.nil))

/-- The construction expression of the scenario,
`mp::builder(mp::multifactory<Aggregate<A, A, B>>, mp::builder(A::factory(), ..),
mp::builder(A::factory(), ..), mp::builder(mp::factory<B>, ..))
.construct(on_success, on_fail)`. -/
def multifail {R : Type r} (on_success : AggregateBuilder → R) (on_fail : A.Error → R)
    (t_args u_args : String × Int) (v_args : Int × Int) : R :=
  (builder (multifactory Aggregate.constructor)
    (multifail_children t_args u_args v_args)).construct2 on_success on_fail

/-- The success callback `[&](auto) { success = true; }`. -/
def set_success {S : Type u} : S → Flags → Flags :=
  fun _ st => { st with success := true }

/-- The callback `[&](A::StringEmptyError) { failure1 = true; }`. -/
def on_string_empty : Callback A.Error A.Error (Flags → Flags) :=
  { kind := A.Error.StringEmptyError, run := fun _ st => { st with failure1 := true } }

/-- The callback `[&](A::IntNegativeError) { failure2 = true; }`. -/
def on_int_negative : Callback A.Error A.Error (Flags → Flags) :=
  { kind := A.Error.IntNegativeError, run := fun _ st => { st with failure2 := true } }

/-- The handler of the first `WHEN`:
`mp::handler([&](A::IntNegativeError) {..}, [&](A::StringEmptyError) {..})`. -/
def handler_first : A.Error → Flags → Flags :=
  handler id [on_int_negative, on_string_empty] (fun e => by cases e <;> rfl)

/-- The handler of the second `WHEN`:
`mp::handler([&](A::StringEmptyError) {..}, [&](A::IntNegativeError) {..})`. -/
def handler_second : A.Error → Flags → Flags :=
  handler id [on_string_empty, on_int_negative] (fun e => by cases e <;> rfl)

/-- The state `success = failure1 = failure2 = false` given by the scenario. -/
def Flags.initial : Flags := { success := false, failure1 := false, failure2 := false }

/-- The block `WHEN("the first nested construction fails")`. -/
def when_first_fails : Flags :=
  multifail set_success handler_first ("abc", -42) ("def", 123) (5, 6) Flags.initial

/-- The block `WHEN("the second nested construction fails")`. -/
def when_second_fails : Flags :=
  multifail set_success handler_second ("abc", 42) ("", 123) (5, 6) Flags.initial

/-- The block `WHEN("construction succeeds")`: the success callback sets `success` and keeps
`res = builder.construct()`; the failure callback `[&](auto) {}` does nothing. -/
def when_construction_succeeds : Flags × Option (Aggregate A A B) :=
  (multifail
    (fun (delivered : AggregateBuilder) (st : Flags) =>
      ({ st with success := true }, some delivered.construct))
    (fun (_ : A.Error) (st : Flags) => (st, none)) ("abc", 42) ("def", 123) (5, 6) :
    Flags → Flags × Option (Aggregate A A B))
    Flags.initial

/-! ## Observing which continuation runs -/

/-- The callback `cb`, made to append its position `j` to a log each time it
runs. -/
def Callback.logged {K E : Type} {X : Type r} (j : Nat) (cb : Callback K E (List Nat → X)) :
    Callback K E (List Nat → X) :=
  { kind := cb.kind, run := fun e log => cb.run e (log ++ [j]) }

/-- All the callbacks logged, numbered from `j` in argument order. -/
def logged_from {K E : Type} {X : Type r} :
    Nat → List (Callback K E (List Nat → X)) → List (Callback K E (List Nat → X))
  | _, [] => []
  | j, cb :: cbs => cb.logged j :: logged_from (j + 1) cbs

/-- What a dispatch delivers: a builder to the success continuation or an
error value to the failure continuation. -/
inductive Outcome (S : Type u) (E : Type v) where
  | success (builder : S)
  | failure (error : E)

/-- The number of times each of the two continuations has been called. -/
structure Calls where
  on_success : Nat
  on_fail : Nat
  deriving DecidableEq, Repr

/-- A success continuation that also counts its own call. -/
def counted_success {S : Type u} {X : Type v} (on_success : S → X) : S → Calls → X × Calls :=
  fun b calls => (on_success b, { calls with on_success := calls.on_success + 1 })

/-- A failure continuation that also counts its own call. -/
def counted_fail {E : Type u} {X : Type v} (on_fail : E → X) : E → Calls → X × Calls :=
  fun e calls => (on_fail e, { calls with on_fail := calls.on_fail + 1 })

/-- The child's factory succeeds: its dispatch hands the builder `b` to the
success continuation and returns what that continuation returns. -/
def Builder.Succeeds {R : Type r} {E Args B : Type}
    (child : Builder ((B → R) → (E → R) → Args → R) Args) (b : B) : Prop :=
  ∀ (on_success : B → R) (on_fail : E → R), child.construct2 on_success on_fail = on_success b

/-- The child's factory fails: its dispatch hands the error `e` to the failure
continuation and returns what that continuation returns. -/
def Builder.Fails {R : Type r} {E Args B : Type}
    (child : Builder ((B → R) → (E → R) → Args → R) Args) (e : E) : Prop :=
  ∀ (on_success : B → R) (on_fail : E → R), child.construct2 on_success on_fail = on_fail e

/-- Child `i` is the first child whose factory fails, and it fails with `e`:
the children before it succeed, the children after it are unconstrained. -/
inductive Children.FirstFailure {R : Type r} {E : Type} :
    {Bs : List Type} → Children R E Bs → Nat → E → Prop where
  | here {Args B : Type} {Bs : List Type}
      {child : Builder ((B → R) → (E → R) → Args → R) Args} {rest : Children R E Bs} {e : E}
      (fails : child.Fails e) : FirstFailure (Children.cons child rest) 0 e
  | later {Args B : Type} {Bs : List Type}
      {child : Builder ((B → R) → (E → R) → Args → R) Args} {rest : Children R E Bs}
      {b : B} {i : Nat} {e : E}
      (succeeds : child.Succeeds b) (tail : FirstFailure rest i e) :
      FirstFailure (Children.cons child rest) (i + 1) e

/-- Every child's factory succeeds, child `i` with the builder `bs[i]`. -/
inductive Children.AllSucceed {R : Type r} {E : Type} :
    {Bs : List Type} → Children R E Bs → HList Bs → Prop where
  | nil : AllSucceed Children.nil HList.nil
  | cons {Args B : Type} {Bs : List Type}
      {child : Builder ((B → R) → (E → R) → Args → R) Args} {rest : Children R E Bs}
      {b : B} {bs : HList Bs}
      (succeeds : child.Succeeds b) (tail : AllSucceed rest bs) :
      AllSucceed (Children.cons child rest) (HList.cons b bs)

/-- Every child's factory follows the protocol: it either succeeds or fails. -/
def Children.WellBehaved {R : Type r} {E : Type} :
    {Bs : List Type} → Children R E Bs → Prop
  | _, Children.nil => True
  | _, Children.cons child rest =>
    ((∃ b, child.Succeeds b) ∨ (∃ e, child.Fails e)) ∧ Children.WellBehaved rest

/-- At least one child's factory fails. -/
def Children.AnyFails {R : Type r} {E : Type} :
    {Bs : List Type} → Children R E Bs → Prop
  | _, Children.nil => False
  | _, Children.cons child rest => (∃ e, child.Fails e) ∨ Children.AnyFails rest

/-- The child builder `child`, made to append its index `j` to a log each time
it is dispatched. -/
def traced {X : Type r} {E Args B : Type} (j : Nat)
    (child : Builder ((B → List Nat → X) → (E → List Nat → X) → Args → List Nat → X) Args) :
    Builder ((B → List Nat → X) → (E → List Nat → X) → Args → List Nat → X) Args :=
  builder
    (fun on_success on_fail args log => child.callback on_success on_fail args (log ++ [j]))
    child.args

/-- All the children traced, numbered from `j` in argument order. -/
def Children.traceFrom {X : Type r} {E : Type} :
    {Bs : List Type} → Nat → Children (List Nat → X) E Bs → Children (List Nat → X) E Bs
  | _, _, Children.nil => Children.nil
  | _, j, Children.cons child rest =>
    Children.cons (traced j child) (Children.traceFrom (j + 1) rest)

/-! ## Shared lemmas -/

theorem isEmpty_eq_true_iff (s : String) : s.isEmpty = true ↔ s = "" :=
  String.isEmpty_iff s

theorem A_factory_empty {R : Type r} (on_success : ABuilder → R) (on_fail : A.Error → R)
    (s : String) (n : Int) (hs : s = "") :
    A.factory on_success on_fail (s, n) = on_fail A.Error.StringEmptyError := by
  have h : s.isEmpty = true := (isEmpty_eq_true_iff s).2 hs
  simp [A.factory, h]

theorem A_factory_negative {R : Type r} (on_success : ABuilder → R) (on_fail : A.Error → R)
    (s : String) (n : Int) (hs : s ≠ "") (hn : n < 0) :
    A.factory on_success on_fail (s, n) = on_fail A.Error.IntNegativeError := by
  have h : ¬ s.isEmpty = true := fun h => hs ((isEmpty_eq_true_iff s).1 h)
  simp [A.factory, h, hn]

theorem A_factory_valid {R : Type r} (on_success : ABuilder → R) (on_fail : A.Error → R)
    (s : String) (n : Int) (hs : s ≠ "") (hn : 0 ≤ n) :
    A.factory on_success on_fail (s, n) = on_success (builder A.constructor (s, n)) := by
  have h : ¬ s.isEmpty = true := fun h => hs ((isEmpty_eq_true_iff s).1 h)
  have hn' : ¬ n < 0 := not_lt.mpr hn
  simp [A.factory, h, hn']

theorem A_factory_cases {R : Type r} (on_success : ABuilder → R) (on_fail : A.Error → R)
    (s : String) (n : Int) :
    A.factory on_success on_fail (s, n) =
      (if s = "" then on_fail A.Error.StringEmptyError
       else if n < 0 then on_fail A.Error.IntNegativeError
       else on_success (builder A.constructor (s, n))) := by
  by_cases hs : s = ""
  · rw [if_pos hs]; exact A_factory_empty on_success on_fail s n hs
  · rw [if_neg hs]
    by_cases hn : n < 0
    · rw [if_pos hn]; exact A_factory_negative on_success on_fail s n hs hn
    · rw [if_neg hn]; exact A_factory_valid on_success on_fail s n hs (not_lt.mp hn)

theorem Factory_eq {Args T : Type} {F : Type v} {R : Type r} (braced : Args → T)
    (on_success : Builder (Args → T) Args → R) (on_fail : F) (args : Args) :
    Factory braced on_success on_fail args = on_success (builder braced args) :=
  rfl

theorem A_child_succeeds {R : Type r} (s : String) (n : Int) (hs : s ≠ "") (hn : 0 ≤ n) :
    (builder (A.factory : (ABuilder → R) → (A.Error → R) → String × Int → R) (s, n)).Succeeds
      (builder A.constructor (s, n)) :=
  fun on_success on_fail => A_factory_valid on_success on_fail s n hs hn

theorem A_child_fails_empty {R : Type r} (s : String) (n : Int) (hs : s = "") :
    (builder (A.factory : (ABuilder → R) → (A.Error → R) → String × Int → R) (s, n)).Fails
      A.Error.StringEmptyError :=
  fun on_success on_fail => A_factory_empty on_success on_fail s n hs

theorem A_child_fails_negative {R : Type r} (s : String) (n : Int) (hs : s ≠ "") (hn : n < 0) :
    (builder (A.factory : (ABuilder → R) → (A.Error → R) → String × Int → R) (s, n)).Fails
      A.Error.IntNegativeError :=
  fun on_success on_fail => A_factory_negative on_success on_fail s n hs hn

theorem B_child_succeeds {R : Type r} {E : Type} (a b : Int) :
    (builder (factory B.braced : (BBuilder → R) → (E → R) → Int × Int → R) (a, b)).Succeeds
      (builder B.braced (a, b)) :=
  fun _ _ => rfl

theorem A_child_wellBehaved {R : Type r} (args : String × Int) :
    (∃ b, (builder (A.factory : (ABuilder → R) → (A.Error → R) → String × Int → R)
        args).Succeeds b) ∨
    (∃ e, (builder (A.factory : (ABuilder → R) → (A.Error → R) → String × Int → R)
        args).Fails e) := by
  obtain ⟨s, n⟩ := args
  by_cases hs : s = ""
  · exact Or.inr ⟨_, A_child_fails_empty s n hs⟩
  · by_cases hn : n < 0
    · exact Or.inr ⟨_, A_child_fails_negative s n hs hn⟩
    · exact Or.inl ⟨_, A_child_succeeds s n hs (not_lt.mp hn)⟩

theorem multifail_children_wellBehaved {R : Type r} (t_args u_args : String × Int)
    (v_args : Int × Int) :
    (multifail_children t_args u_args v_args : Children R A.Error _).WellBehaved :=
  ⟨A_child_wellBehaved t_args, A_child_wellBehaved u_args,
    Or.inl ⟨_, B_child_succeeds v_args.1 v_args.2⟩, trivial⟩

theorem dispatch_allSucceed {R : Type r} {E : Type} (on_fail : E → R) {Bs : List Type}
    {children : Children R E Bs} {bs : HList Bs} (all : children.AllSucceed bs) :
    ∀ done : HList Bs → R, multifactory.dispatch on_fail children done = done bs := by
  induction all with
  | nil => intro done; rfl
  | cons succeeds _ ih =>
    intro done
    rw [multifactory.dispatch, succeeds]
    exact ih _

theorem dispatch_firstFailure {R : Type r} {E : Type} (on_fail : E → R) {Bs : List Type}
    {children : Children R E Bs} {i : Nat} {e : E} (first : children.FirstFailure i e) :
    ∀ done : HList Bs → R, multifactory.dispatch on_fail children done = on_fail e := by
  induction first with
  | here fails => intro done; rw [multifactory.dispatch, fails]
  | later succeeds _ ih =>
    intro done
    rw [multifactory.dispatch, succeeds]
    exact ih _

theorem traced_construct2 {X : Type r} {E Args B : Type} (j : Nat)
    (child : Builder ((B → List Nat → X) → (E → List Nat → X) → Args → List Nat → X) Args)
    (on_success : B → List Nat → X) (on_fail : E → List Nat → X) (log : List Nat) :
    (traced j child).construct2 on_success on_fail log =
      child.construct2 on_success on_fail (log ++ [j]) :=
  rfl

theorem dispatch_traced {X : Type r} {E : Type} (on_fail : E → List Nat → X) {Bs : List Type}
    {children : Children (List Nat → X) E Bs} {i : Nat} {e : E}
    (first : children.FirstFailure i e) :
    ∀ (j : Nat) (done : HList Bs → List Nat → X) (log : List Nat),
      multifactory.dispatch on_fail (Children.traceFrom j children) done log =
        on_fail e (log ++ List.range' j (i + 1)) := by
  induction first with
  | here fails =>
    intro j done log
    rw [Children.traceFrom, multifactory.dispatch, traced_construct2, fails]
    simp [List.range']
  | later succeeds _ ih =>
    intro j done log
    rw [Children.traceFrom, multifactory.dispatch, traced_construct2, succeeds, ih]
    simp [List.range']

theorem firstFailure_of_anyFails {R : Type r} {E : Type} {Bs : List Type}
    (children : Children R E Bs) (wb : children.WellBehaved) (fails : children.AnyFails) :
    ∃ i e, children.FirstFailure i e := by
  induction children with
  | nil => exact absurd fails (by simp [Children.AnyFails])
  | cons child rest ih =>
    rcases fails with ⟨e, he⟩ | hrest
    · exact ⟨0, e, Children.FirstFailure.here he⟩
    · rcases wb.1 with ⟨b, hb⟩ | ⟨e, he⟩
      · obtain ⟨i, e, hi⟩ := ih wb.2 hrest
        exact ⟨i + 1, e, Children.FirstFailure.later hb hi⟩
      · exact ⟨0, e, Children.FirstFailure.here he⟩

theorem anyFails_of_firstFailure {R : Type r} {E : Type} {Bs : List Type}
    {children : Children R E Bs} {i : Nat} {e : E} (first : children.FirstFailure i e) :
    children.AnyFails := by
  induction first with
  | here fails => exact Or.inl ⟨_, fails⟩
  | later _ _ ih => exact Or.inr ih

theorem allSucceed_or_firstFailure {R : Type r} {E : Type} {Bs : List Type}
    (children : Children R E Bs) (wb : children.WellBehaved) :
    (∃ bs, children.AllSucceed bs) ∨ (∃ i e, children.FirstFailure i e) := by
  induction children with
  | nil => exact Or.inl ⟨HList.nil, Children.AllSucceed.nil⟩
  | cons child rest ih =>
    rcases wb.1 with ⟨b, hb⟩ | ⟨e, he⟩
    · rcases ih wb.2 with ⟨bs, hbs⟩ | ⟨i, e, hi⟩
      · exact Or.inl ⟨HList.cons b bs, Children.AllSucceed.cons hb hbs⟩
      · exact Or.inr ⟨i + 1, e, Children.FirstFailure.later hb hi⟩
    · exact Or.inr ⟨0, e, Children.FirstFailure.here he⟩

theorem multifactory_allSucceed {R : Type r} {E : Type} {Agg : Type u} {Bs : List Type}
    (ctor : HList Bs → Agg) (on_success : Builder (HList Bs → Agg) (HList Bs) → R)
    (on_fail : E → R) {children : Children R E Bs} {bs : HList Bs}
    (all : children.AllSucceed bs) :
    multifactory ctor on_success on_fail children = on_success (builder ctor bs) :=
  dispatch_allSucceed on_fail all _

theorem multifactory_firstFailure {R : Type r} {E : Type} {Agg : Type u} {Bs : List Type}
    (ctor : HList Bs → Agg) (on_success : Builder (HList Bs → Agg) (HList Bs) → R)
    (on_fail : E → R) {children : Children R E Bs} {i : Nat} {e : E}
    (first : children.FirstFailure i e) :
    multifactory ctor on_success on_fail children = on_fail e :=
  dispatch_firstFailure on_fail first _

theorem multifail_cases {R : Type r} (on_success : AggregateBuilder → R)
    (on_fail : A.Error → R) (s1 : String) (n1 : Int) (s2 : String) (n2 : Int) (a b : Int) :
    multifail on_success on_fail (s1, n1) (s2, n2) (a, b) =
      (if s1 = "" then on_fail A.Error.StringEmptyError
       else if n1 < 0 then on_fail A.Error.IntNegativeError
       else if s2 = "" then on_fail A.Error.StringEmptyError
       else if n2 < 0 then on_fail A.Error.IntNegativeError
       else on_success (builder Aggregate.constructor
        (HList.cons (builder A.constructor (s1, n1))
          (HList.cons (builder A.constructor (s2, n2))
            (HList.cons (builder B.braced (a, b)) HList.nil))))) := by
  have unfold1 : multifail on_success on_fail (s1, n1) (s2, n2) (a, b) =
      A.factory (fun b1 => A.factory (fun b2 => on_success (builder Aggregate.constructor
        (HList.cons b1 (HList.cons b2 (HList.cons (builder B.braced (a, b)) HList.nil)))))
        (fun error => on_fail error) (s2, n2)) (fun error => on_fail error) (s1, n1) := rfl
  rw [unfold1, A_factory_cases]
  by_cases h1 : s1 = ""
  · simp [h1]
  · by_cases hn1 : n1 < 0
    · simp [h1, hn1]
    · rw [if_neg h1, if_neg hn1, if_neg h1, if_neg hn1, A_factory_cases]

theorem head_eq_of_length_one {α : Type u} (l : List α) (h : l ≠ []) (len : l.length = 1)
    (x : α) (hx : x ∈ l) : l.head h = x := by
  match l, len with
  | [y], _ => simpa using (List.mem_singleton.1 hx).symm

theorem handler_eq_of_mem {K E : Type} {R : Type r} [DecidableEq K] (kindOf : E → K)
    (cbs : List (Callback K E R)) (covers : Covers kindOf cbs) (e : E) (cb : Callback K E R)
    (hmem : cb ∈ cbs) (hkind : cb.kind = kindOf e) :
    handler kindOf cbs covers e = cb.run e := by
  have hm : cb ∈ matching kindOf cbs e := List.mem_filter.2 ⟨hmem, by simpa using hkind⟩
  unfold handler
  simp only []
  rw [head_eq_of_length_one (matching kindOf cbs e) _ (covers e) cb hm]

theorem logged_from_mem {K E : Type} {X : Type r}
    (cbs : List (Callback K E (List Nat → X))) :
    ∀ (k j : Nat) (cb : Callback K E (List Nat → X)), cbs[j]? = some cb →
      cb.logged (k + j) ∈ logged_from k cbs := by
  induction cbs with
  | nil => intro k j cb h; simp at h
  | cons c cs ih =>
    intro k j cb h
    cases j with
    | zero =>
      simp at h
      subst h
      simp [logged_from]
    | succ j =>
      simp at h
      have := ih (k + 1) j cb h
      rw [logged_from]
      exact List.mem_cons_of_mem _ (by simpa [Nat.add_assoc, Nat.add_comm 1 j] using this)

theorem covers_pair {R : Type r} (f g : A.Error → R) :
    Covers id [({ kind := A.Error.StringEmptyError, run := f } : Callback A.Error A.Error R),
      { kind := A.Error.IntNegativeError, run := g }] :=
  fun e => by cases e <;> rfl

/-! ## The validating factory of `A` -/

/-- C3: the outcome of `A::factory()` on `(s, n)` is decided by the two checks
in their order: an empty `s` gives `on_fail(StringEmptyError)`, whatever `n`
is; otherwise a negative `n` gives `on_fail(IntNegativeError)`; otherwise
`on_success` is called.  So the factory fails exactly when `s` is empty or
`n < 0`, `("abc", -42)` gives `IntNegativeError` and `("", 123)` gives
`StringEmptyError`. -/
theorem A_factory_outcome {R : Type r} (on_success : ABuilder → R) (on_fail : A.Error → R)
    (s : String) (n : Int) :
    A.factory on_success on_fail (s, n) =
      (if s = "" then on_fail A.Error.StringEmptyError
       else if n < 0 then on_fail A.Error.IntNegativeError
       else on_success (builder A.constructor (s, n))) ∧
    A.factory on_success on_fail ("", n) = on_fail A.Error.StringEmptyError ∧
    ((∃ e, (A.factory Outcome.success Outcome.failure (s, n) : Outcome ABuilder A.Error) =
        Outcome.failure e) ↔ (s = "" ∨ n < 0)) ∧
    A.factory on_success on_fail ("abc", -42) = on_fail A.Error.IntNegativeError ∧
    A.factory on_success on_fail ("", 123) = on_fail A.Error.StringEmptyError := by
  refine ⟨A_factory_cases on_success on_fail s n,
    A_factory_empty on_success on_fail "" n rfl, ?_,
    A_factory_negative on_success on_fail "abc" (-42) (by decide) (by decide),
    A_factory_empty on_success on_fail "" 123 rfl⟩
  rw [A_factory_cases]
  by_cases hs : s = ""
  · simp [hs]
  · by_cases hn : n < 0
    · simp [hs, hn]
    · simp [hs, hn]

/-- C4: for a non-empty `s` and `n >= 0`, `A::factory()` calls `on_success` with
a builder whose `construct()` is an `A` with `get_a_string() = s` and
`get_an_int() = n`: both arguments reach the object unchanged. -/
theorem A_factory_constructs_inputs {R : Type r} (on_success : ABuilder → R)
    (on_fail : A.Error → R) (s : String) (n : Int) (hs : s ≠ "") (hn : 0 ≤ n) :
    A.factory on_success on_fail (s, n) = on_success (builder A.constructor (s, n)) ∧
    (A.factory Outcome.success Outcome.failure (s, n) : Outcome ABuilder A.Error) =
      Outcome.success (builder A.constructor (s, n)) ∧
    (builder A.constructor (s, n)).construct.get_a_string = s ∧
    (builder A.constructor (s, n)).construct.get_an_int = n :=
  ⟨A_factory_valid on_success on_fail s n hs hn,
    A_factory_valid Outcome.success Outcome.failure s n hs hn, rfl, rfl⟩

theorem A_factory_constructs_inputs_witness :
    A.factory (fun b => some b.construct) (fun _ => none) ("abc", 42) =
      some (builder A.constructor ("abc", 42)).construct ∧
    (A.factory Outcome.success Outcome.failure ("abc", 42) : Outcome ABuilder A.Error) =
      Outcome.success (builder A.constructor ("abc", 42)) ∧
    (builder A.constructor ("abc", 42)).construct.get_a_string = "abc" ∧
    (builder A.constructor ("abc", 42)).construct.get_an_int = 42 :=
  A_factory_constructs_inputs (fun b => some b.construct) (fun _ => none) "abc" 42
    (by decide) (by decide)

/-! ## The trivial factory -/

/-- C5: `Factory<T>` never takes a failure path: its result is the result of the
one call `on_success(builder)`, it is the same for any two failure continuations,
and with counting continuations the call counts grow by one `on_success` call and
no `on_fail` call. -/
theorem Factory_never_fails {Args T E : Type} {F : Type u} {F' : Type v} {R : Type r}
    (braced : Args → T) (on_success : Builder (Args → T) Args → R) (on_fail : F)
    (on_fail' : F') (counted : E → R) (args : Args) (calls : Calls) :
    Factory braced on_success on_fail args = on_success (builder braced args) ∧
    Factory braced on_success on_fail args = Factory braced on_success on_fail' args ∧
    Factory braced (counted_success on_success) (counted_fail counted) args calls =
      (on_success (builder braced args),
        { on_success := calls.on_success + 1, on_fail := calls.on_fail }) :=
  ⟨rfl, rfl, rfl⟩

/-- C6: the builder that `Factory<T>` hands to `on_success` constructs `T{args...}`;
for `B` on `(a, b)` the result has `int_a = a` and `int_b = b`, and on `(5, 6)` it is
`B{5, 6}`. -/
theorem Factory_builder_constructs_braced {Args T : Type} {F : Type u} {F' : Type v}
    (braced : Args → T) (on_fail : F) (on_fail' : F') (args : Args) (a b : Int) :
    (Factory braced (fun resolved => resolved) on_fail args).construct = braced args ∧
    (Factory B.braced (fun resolved => resolved) on_fail' (a, b)).construct.int_a = a ∧
    (Factory B.braced (fun resolved => resolved) on_fail' (a, b)).construct.int_b = b ∧
    (Factory B.braced (fun resolved => resolved) on_fail' (5, 6)).construct =
      { int_a := 5, int_b := 6 } :=
  ⟨rfl, rfl, rfl, rfl⟩

/-- C7: every factory of the repository calls exactly one of its two continuations,
exactly once.  With counting continuations, `A::factory()` on any `(s, n)` either
returns an `on_success` result with one more `on_success` call and no more `on_fail`
calls, or an `on_fail` result with one more `on_fail` call and no more `on_success`
calls, and never both; `Factory<T>` always does the former. -/
theorem factories_call_exactly_one_continuation {X : Type r} {Y : Type v} {Args T E : Type}
    (on_success : ABuilder → X) (on_fail : A.Error → X) (s : String) (n : Int)
    (braced : Args → T) (on_success' : Builder (Args → T) Args → Y) (on_fail' : E → Y)
    (args : Args) (calls : Calls) :
    Xor'
      (∃ b, A.factory (counted_success on_success) (counted_fail on_fail) (s, n) calls =
        (on_success b, { on_success := calls.on_success + 1, on_fail := calls.on_fail }))
      (∃ e, A.factory (counted_success on_success) (counted_fail on_fail) (s, n) calls =
        (on_fail e, { on_success := calls.on_success, on_fail := calls.on_fail + 1 })) ∧
    Factory braced (counted_success on_success') (counted_fail on_fail') args calls =
      (on_success' (builder braced args),
        { on_success := calls.on_success + 1, on_fail := calls.on_fail }) := by
  refine ⟨?_, rfl⟩
  rw [A_factory_cases]
  by_cases hs : s = ""
  · rw [if_pos hs]
    refine Or.inr ⟨⟨A.Error.StringEmptyError, rfl⟩, ?_⟩
    rintro ⟨b, hb⟩
    have h := congrArg (fun p => p.2.on_success) hb
    simp [counted_fail] at h
  · rw [if_neg hs]
    by_cases hn : n < 0
    · rw [if_pos hn]
      refine Or.inr ⟨⟨A.Error.IntNegativeError, rfl⟩, ?_⟩
      rintro ⟨b, hb⟩
      have h := congrArg (fun p => p.2.on_success) hb
      simp [counted_fail] at h
    · rw [if_neg hn]
      refine Or.inl ⟨⟨_, rfl⟩, ?_⟩
      rintro ⟨e, he⟩
      have h := congrArg (fun p => p.2.on_fail) he
      simp [counted_success] at h

/-! ## Aggregate multi-construction -/

/-- C1: when child `i` is the first child whose factory fails, with error `e`,
`multifactory` returns `on_fail(e)`: the caller's failure continuation receives the
child's own error value.  Whatever the children after `i` are, they are not
dispatched: when every child logs its index on dispatch, the log gains exactly
`0, .., i`.  Children after `i` that would fail too change nothing.  In the two
failing scenarios of the test only `failure2`, respectively only `failure1`, is set. -/
theorem multifactory_reports_first_failure {X : Type r} {E : Type} {Agg : Type u}
    {Bs : List Type} (ctor : HList Bs → Agg)
    (on_success : Builder (HList Bs → Agg) (HList Bs) → List Nat → X)
    (on_fail : E → List Nat → X) (children : Children (List Nat → X) E Bs) (i : Nat) (e : E)
    (first : children.FirstFailure i e) (log : List Nat) :
    multifactory ctor on_success on_fail children = on_fail e ∧
    multifactory ctor on_success on_fail (Children.traceFrom 0 children) log =
      on_fail e (log ++ List.range (i + 1)) ∧
    when_first_fails = { success := false, failure1 := false, failure2 := true } ∧
    when_second_fails = { success := false, failure1 := true, failure2 := false } := by
  refine ⟨multifactory_firstFailure ctor on_success on_fail first, ?_, rfl, rfl⟩
  rw [multifactory, dispatch_traced on_fail first, List.range_eq_range']

theorem multifactory_reports_first_failure_witness :
    multifactory Aggregate.constructor (fun _ (log : List Nat) => (none, log))
        (fun e log => (some e, log)) (multifail_children ("abc", -42) ("", 123) (5, 6)) =
      (fun log => (some A.Error.IntNegativeError, log)) ∧
    multifactory Aggregate.constructor (fun _ (log : List Nat) => (none, log))
        (fun e log => (some e, log))
        (Children.traceFrom 0 (multifail_children ("abc", -42) ("", 123) (5, 6))) [] =
      (some A.Error.IntNegativeError, [0]) ∧
    when_first_fails = { success := false, failure1 := false, failure2 := true } ∧
    when_second_fails = { success := false, failure1 := true, failure2 := false } :=
  multifactory_reports_first_failure Aggregate.constructor
    (fun _ (log : List Nat) => (none, log))
    (fun e log => (some e, log)) (multifail_children ("abc", -42) ("", 123) (5, 6)) 0
    A.Error.IntNegativeError
    (Children.FirstFailure.here (A_child_fails_negative "abc" (-42) (by decide) (by decide)))
    []

/-- C2: when every child's factory succeeds, child `i` with builder `bs[i]`,
`multifactory` returns `on_success(builder)` for the builder that applies the
aggregate's construction step to `bs`.  For `Aggregate<A, A, B>` with children
`(s1, n1)`, `(s2, n2)`, `(a, b)`, `s1`, `s2` non-empty and `n1, n2 >= 0`, the builder
delivered constructs an aggregate whose `get_t()` reports `(s1, n1)`, whose `get_u()`
reports `(s2, n2)` and whose `get_v()` reports `(a, b)`; the succeeding scenario of
the test sets `success` and constructs `(("abc", 42), ("def", 123), (5, 6))`. -/
theorem multifactory_success_builds_fields {R : Type r} {E : Type} {Agg : Type u}
    {Bs : List Type} (ctor : HList Bs → Agg)
    (on_success : Builder (HList Bs → Agg) (HList Bs) → R) (on_fail : E → R)
    (children : Children R E Bs) (bs : HList Bs) (all : children.AllSucceed bs)
    (on_success' : AggregateBuilder → R) (on_fail' : A.Error → R)
    (s1 : String) (n1 : Int) (s2 : String) (n2 : Int) (a b : Int)
    (hs1 : s1 ≠ "") (hn1 : 0 ≤ n1) (hs2 : s2 ≠ "") (hn2 : 0 ≤ n2) :
    multifactory ctor on_success on_fail children = on_success (builder ctor bs) ∧
    (builder ctor bs).construct = ctor bs ∧
    ∃ delivered : AggregateBuilder,
      multifail on_success' on_fail' (s1, n1) (s2, n2) (a, b) = on_success' delivered ∧
      (multifail Outcome.success Outcome.failure (s1, n1) (s2, n2) (a, b) :
        Outcome AggregateBuilder A.Error) = Outcome.success delivered ∧
      delivered.construct.get_t.get_a_string = s1 ∧
      delivered.construct.get_t.get_an_int = n1 ∧
      delivered.construct.get_u.get_a_string = s2 ∧
      delivered.construct.get_u.get_an_int = n2 ∧
      delivered.construct.get_v.int_a = a ∧
      delivered.construct.get_v.int_b = b ∧
      when_construction_succeeds =
        ({ success := true, failure1 := false, failure2 := false },
          some { t := { a_string := "abc", an_int := 42 },
                 u := { a_string := "def", an_int := 123 },
                 v := { int_a := 5, int_b := 6 } }) := by
  refine ⟨multifactory_allSucceed ctor on_success on_fail all, rfl,
    builder Aggregate.constructor
      (HList.cons (builder A.constructor (s1, n1))
        (HList.cons (builder A.constructor (s2, n2))
          (HList.cons (builder B.braced (a, b)) HList.nil))),
    ?_, ?_, rfl, rfl, rfl, rfl, rfl, rfl, rfl⟩
  · rw [multifail_cases, if_neg hs1, if_neg (not_lt.mpr hn1), if_neg hs2,
      if_neg (not_lt.mpr hn2)]
  · rw [multifail_cases, if_neg hs1, if_neg (not_lt.mpr hn1), if_neg hs2,
      if_neg (not_lt.mpr hn2)]

theorem multifactory_success_builds_fields_witness :
    multifactory Aggregate.constructor (fun delivered => some delivered.construct)
        (fun _ => none) (multifail_children ("abc", 42) ("def", 123) (5, 6)) =
      some (builder Aggregate.constructor
        (HList.cons (builder A.constructor ("abc", 42))
          (HList.cons (builder A.constructor ("def", 123))
            (HList.cons (builder B.braced (5, 6)) HList.nil)))).construct ∧
    (builder (Aggregate.constructor : _ → Aggregate A A B)
        (HList.cons (builder A.constructor ("abc", 42))
          (HList.cons (builder A.constructor ("def", 123))
            (HList.cons (builder B.braced (5, 6)) HList.nil)))).construct =
      Aggregate.constructor
        (HList.cons (builder A.constructor ("abc", 42))
          (HList.cons (builder A.constructor ("def", 123))
            (HList.cons (builder B.braced (5, 6)) HList.nil))) ∧
    ∃ delivered : AggregateBuilder,
      multifail (fun delivered => some delivered.construct) (fun _ => none)
        ("abc", 42) ("def", 123) (5, 6) = some delivered.construct ∧
      (multifail Outcome.success Outcome.failure ("abc", 42) ("def", 123) (5, 6) :
        Outcome AggregateBuilder A.Error) = Outcome.success delivered ∧
      delivered.construct.get_t.get_a_string = "abc" ∧
      delivered.construct.get_t.get_an_int = 42 ∧
      delivered.construct.get_u.get_a_string = "def" ∧
      delivered.construct.get_u.get_an_int = 123 ∧
      delivered.construct.get_v.int_a = 5 ∧
      delivered.construct.get_v.int_b = 6 ∧
      when_construction_succeeds =
        ({ success := true, failure1 := false, failure2 := false },
          some { t := { a_string := "abc", an_int := 42 },
                 u := { a_string := "def", an_int := 123 },
                 v := { int_a := 5, int_b := 6 } }) :=
  multifactory_success_builds_fields Aggregate.constructor
    (fun delivered => some delivered.construct) (fun _ => none)
    (multifail_children ("abc", 42) ("def", 123) (5, 6))
    (HList.cons (builder A.constructor ("abc", 42))
      (HList.cons (builder A.constructor ("def", 123))
        (HList.cons (builder B.braced (5, 6)) HList.nil)))
    (Children.AllSucceed.cons (A_child_succeeds "abc" 42 (by decide) (by decide))
      (Children.AllSucceed.cons (A_child_succeeds "def" 123 (by decide) (by decide))
        (Children.AllSucceed.cons (B_child_succeeds 5 6) Children.AllSucceed.nil)))
    (fun delivered => some delivered.construct) (fun _ => none)
    "abc" 42 "def" 123 5 6 (by decide) (by decide) (by decide) (by decide)

/-- C8: for children whose factories follow the protocol, one construction attempt
through `multifactory` calls exactly one of the caller's continuations, exactly once:
with counting continuations it either returns an `on_success` result with one more
`on_success` call, or an `on_fail` result with one more `on_fail` call, never both; the
latter happens exactly when at least one child's factory fails.  In the scenario of
the test, for every input, exactly one of the flags `success`, `failure1`, `failure2`
is set, so on failure exactly one callback of the composed handler has run. -/
theorem multifactory_exactly_one_outcome {X : Type r} {E : Type} {Agg : Type u}
    {Bs : List Type} (ctor : HList Bs → Agg)
    (on_success : Builder (HList Bs → Agg) (HList Bs) → X) (on_fail : E → X)
    (children : Children (Calls → X × Calls) E Bs) (wb : children.WellBehaved)
    (calls : Calls) (t_args u_args : String × Int) (v_args : Int × Int) :
    Xor'
      (∃ bs, multifactory ctor (counted_success on_success) (counted_fail on_fail) children
          calls =
        (on_success (builder ctor bs),
          { on_success := calls.on_success + 1, on_fail := calls.on_fail }))
      (∃ e, multifactory ctor (counted_success on_success) (counted_fail on_fail) children
          calls =
        (on_fail e, { on_success := calls.on_success, on_fail := calls.on_fail + 1 })) ∧
    ((∃ e, multifactory ctor (counted_success on_success) (counted_fail on_fail) children
          calls =
        (on_fail e, { on_success := calls.on_success, on_fail := calls.on_fail + 1 })) ↔
      children.AnyFails) ∧
    (multifail set_success handler_first t_args u_args v_args Flags.initial =
        { success := true, failure1 := false, failure2 := false } ∨
      multifail set_success handler_first t_args u_args v_args Flags.initial =
        { success := false, failure1 := true, failure2 := false } ∨
      multifail set_success handler_first t_args u_args v_args Flags.initial =
        { success := false, failure1 := false, failure2 := true }) ∧
    ((multifail set_success handler_first t_args u_args v_args Flags.initial).success = false ↔
      (t_args.1 = "" ∨ t_args.2 < 0 ∨ u_args.1 = "" ∨ u_args.2 < 0)) := by
  have success_case : ∀ bs, children.AllSucceed bs →
      multifactory ctor (counted_success on_success) (counted_fail on_fail) children calls =
        (on_success (builder ctor bs),
          { on_success := calls.on_success + 1, on_fail := calls.on_fail }) := by
    intro bs all
    rw [multifactory_allSucceed ctor _ _ all]
    rfl
  have failure_case : ∀ i e, children.FirstFailure i e →
      multifactory ctor (counted_success on_success) (counted_fail on_fail) children calls =
        (on_fail e, { on_success := calls.on_success, on_fail := calls.on_fail + 1 }) := by
    intro i e first
    rw [multifactory_firstFailure ctor _ _ first]
    rfl
  have not_both : ∀ (x y : X),
      ((x, { on_success := calls.on_success + 1, on_fail := calls.on_fail }) : X × Calls) ≠
        (y, { on_success := calls.on_success, on_fail := calls.on_fail + 1 }) := by
    intro x y h
    have h' := congrArg (fun p => p.2.on_success) h
    simp at h'
  refine ⟨?_, ?_, ?_, ?_⟩
  · rcases allSucceed_or_firstFailure children wb with ⟨bs, all⟩ | ⟨i, e, first⟩
    · refine Or.inl ⟨⟨bs, success_case bs all⟩, ?_⟩
      rintro ⟨e, he⟩
      exact not_both _ _ ((success_case bs all).symm.trans he)
    · refine Or.inr ⟨⟨e, failure_case i e first⟩, ?_⟩
      rintro ⟨bs, hbs⟩
      exact not_both _ _ (hbs.symm.trans (failure_case i e first))
  · constructor
    · rintro ⟨e, he⟩
      rcases allSucceed_or_firstFailure children wb with ⟨bs, all⟩ | ⟨i, e', first⟩
      · exact absurd ((success_case bs all).symm.trans he) (not_both _ _)
      · exact anyFails_of_firstFailure first
    · intro fails
      obtain ⟨i, e, first⟩ := firstFailure_of_anyFails children wb fails
      exact ⟨e, failure_case i e first⟩
  · obtain ⟨s1, n1⟩ := t_args
    obtain ⟨s2, n2⟩ := u_args
    obtain ⟨a, b⟩ := v_args
    rw [multifail_cases]
    by_cases h1 : s1 = ""
    · rw [if_pos h1]; exact Or.inr (Or.inl rfl)
    · rw [if_neg h1]
      by_cases hn1 : n1 < 0
      · rw [if_pos hn1]; exact Or.inr (Or.inr rfl)
      · rw [if_neg hn1]
        by_cases h2 : s2 = ""
        · rw [if_pos h2]; exact Or.inr (Or.inl rfl)
        · rw [if_neg h2]
          by_cases hn2 : n2 < 0
          · rw [if_pos hn2]; exact Or.inr (Or.inr rfl)
          · rw [if_neg hn2]; exact Or.inl rfl
  · obtain ⟨s1, n1⟩ := t_args
    obtain ⟨s2, n2⟩ := u_args
    obtain ⟨a, b⟩ := v_args
    rw [multifail_cases]
    by_cases h1 : s1 = ""
    · rw [if_pos h1]; exact ⟨fun _ => Or.inl h1, fun _ => rfl⟩
    · rw [if_neg h1]
      by_cases hn1 : n1 < 0
      · rw [if_pos hn1]; exact ⟨fun _ => Or.inr (Or.inl hn1), fun _ => rfl⟩
      · rw [if_neg hn1]
        by_cases h2 : s2 = ""
        · rw [if_pos h2]; exact ⟨fun _ => Or.inr (Or.inr (Or.inl h2)), fun _ => rfl⟩
        · rw [if_neg h2]
          by_cases hn2 : n2 < 0
          · rw [if_pos hn2]
            exact ⟨fun _ => Or.inr (Or.inr (Or.inr hn2)), fun _ => rfl⟩
          · rw [if_neg hn2]
            constructor
            · intro h
              exact absurd h (by simp [set_success])
            · rintro (h | h | h | h)
              · exact absurd h h1
              · exact absurd h hn1
              · exact absurd h h2
              · exact absurd h hn2

theorem multifactory_exactly_one_outcome_witness :
    Xor'
      (∃ bs, multifactory Aggregate.constructor
          (counted_success (fun _ : AggregateBuilder => true))
          (counted_fail (fun _ : A.Error => false))
          (multifail_children ("abc", -42) ("def", 123) (5, 6))
          { on_success := 0, on_fail := 0 } =
        ((fun _ : AggregateBuilder => true) (builder Aggregate.constructor bs),
          { on_success := 0 + 1, on_fail := 0 }))
      (∃ e, multifactory Aggregate.constructor
          (counted_success (fun _ : AggregateBuilder => true))
          (counted_fail (fun _ : A.Error => false))
          (multifail_children ("abc", -42) ("def", 123) (5, 6))
          { on_success := 0, on_fail := 0 } =
        ((fun _ : A.Error => false) e, { on_success := 0, on_fail := 0 + 1 })) ∧
    ((∃ e, multifactory Aggregate.constructor
          (counted_success (fun _ : AggregateBuilder => true))
          (counted_fail (fun _ : A.Error => false))
          (multifail_children ("abc", -42) ("def", 123) (5, 6))
          { on_success := 0, on_fail := 0 } =
        ((fun _ : A.Error => false) e, { on_success := 0, on_fail := 0 + 1 })) ↔
      (multifail_children ("abc", -42) ("def", 123) (5, 6) :
        Children (Calls → Bool × Calls) A.Error _).AnyFails) ∧
    (multifail set_success handler_first ("abc", -42) ("def", 123) (5, 6) Flags.initial =
        { success := true, failure1 := false, failure2 := false } ∨
      multifail set_success handler_first ("abc", -42) ("def", 123) (5, 6) Flags.initial =
        { success := false, failure1 := true, failure2 := false } ∨
      multifail set_success handler_first ("abc", -42) ("def", 123) (5, 6) Flags.initial =
        { success := false, failure1 := false, failure2 := true }) ∧
    ((multifail set_success handler_first ("abc", -42) ("def", 123) (5, 6)
        Flags.initial).success = false ↔
      (("abc", (-42 : Int)).1 = "" ∨ ("abc", (-42 : Int)).2 < 0 ∨
        ("def", (123 : Int)).1 = "" ∨ ("def", (123 : Int)).2 < 0)) :=
  multifactory_exactly_one_outcome Aggregate.constructor (fun _ : AggregateBuilder => true)
    (fun _ : A.Error => false) (multifail_children ("abc", -42) ("def", 123) (5, 6))
    (multifail_children_wellBehaved ("abc", -42) ("def", 123) (5, 6))
    { on_success := 0, on_fail := 0 } ("abc", -42) ("def", 123) (5, 6)

/-- C9: aggregate construction is all-or-nothing.  When the children follow the
protocol and at least one child's factory fails, there is a first failing child, and
the result of `multifactory` is `on_fail(e)` for its error, for every construction step
`ctor` of the aggregate and every success continuation: the result depends neither on
the aggregate's constructor, nor on `on_success` (the only receiver of a builder that
could be finalized), nor on what the builders resolved before the failure construct. -/
theorem multifactory_all_or_nothing {R : Type r} {E : Type} {Bs : List Type}
    (children : Children R E Bs) (wb : children.WellBehaved) (fails : children.AnyFails) :
    ∃ (i : Nat) (e : E), children.FirstFailure i e ∧
      ∀ (Agg : Type u) (ctor : HList Bs → Agg)
        (on_success : Builder (HList Bs → Agg) (HList Bs) → R) (on_fail : E → R),
        multifactory ctor on_success on_fail children = on_fail e := by
  obtain ⟨i, e, first⟩ := firstFailure_of_anyFails children wb fails
  exact ⟨i, e, first, fun _ ctor on_success on_fail =>
    multifactory_firstFailure ctor on_success on_fail first⟩

theorem multifactory_all_or_nothing_witness :
    ∃ (i : Nat) (e : A.Error),
      (multifail_children ("abc", 42) ("", 123) (5, 6) :
        Children (Flags → Flags) A.Error _).FirstFailure i e ∧
      ∀ (Agg : Type) (ctor : HList [ABuilder, ABuilder, BBuilder] → Agg)
        (on_success : Builder (HList [ABuilder, ABuilder, BBuilder] → Agg)
          (HList [ABuilder, ABuilder, BBuilder]) → Flags → Flags)
        (on_fail : A.Error → Flags → Flags),
        multifactory ctor on_success on_fail
          (multifail_children ("abc", 42) ("", 123) (5, 6)) = on_fail e :=
  multifactory_all_or_nothing (multifail_children ("abc", 42) ("", 123) (5, 6))
    (multifail_children_wellBehaved ("abc", 42) ("", 123) (5, 6))
    (Or.inr (Or.inl ⟨A.Error.StringEmptyError, A_child_fails_empty "" 123 rfl⟩))

/-! ## Error handler composition -/

/-- C10: a composed handler applied to an error value `e` returns the result of the
callback `cb` registered for the kind of `e`, and runs no other callback: when every
callback logs its position on running, the log gains exactly the position of `cb`.
`handler(onStringEmpty, onIntNegative)` applied to `StringEmptyError` runs only
`onStringEmpty`, and applied to `IntNegativeError` runs only `onIntNegative`. -/
theorem handler_runs_matching_callback {K E : Type} {R : Type r} {X : Type u} {Y : Type v}
    [DecidableEq K] (kindOf : E → K) (cbs : List (Callback K E R))
    (covers : Covers kindOf cbs) (e : E) (cb : Callback K E R) (hmem : cb ∈ cbs)
    (hkind : cb.kind = kindOf e)
    (logged : List (Callback K E (List Nat → X)))
    (covers_logged : Covers kindOf (logged_from 0 logged)) (j : Nat)
    (cbj : Callback K E (List Nat → X)) (hj : logged[j]? = some cbj)
    (hkindj : cbj.kind = kindOf e) (log : List Nat)
    (onStringEmpty onIntNegative : A.Error → Y)
    (covers_two : Covers id
      [({ kind := A.Error.StringEmptyError, run := onStringEmpty } : Callback A.Error A.Error Y),
        { kind := A.Error.IntNegativeError, run := onIntNegative }]) :
    handler kindOf cbs covers e = cb.run e ∧
    handler kindOf (logged_from 0 logged) covers_logged e log = cbj.run e (log ++ [j]) ∧
    handler id
        [({ kind := A.Error.StringEmptyError, run := onStringEmpty } :
            Callback A.Error A.Error Y),
          { kind := A.Error.IntNegativeError, run := onIntNegative }]
        covers_two A.Error.StringEmptyError = onStringEmpty A.Error.StringEmptyError ∧
    handler id
        [({ kind := A.Error.StringEmptyError, run := onStringEmpty } :
            Callback A.Error A.Error Y),
          { kind := A.Error.IntNegativeError, run := onIntNegative }]
        covers_two A.Error.IntNegativeError = onIntNegative A.Error.IntNegativeError := by
  refine ⟨handler_eq_of_mem kindOf cbs covers e cb hmem hkind, ?_, rfl, rfl⟩
  have hm := logged_from_mem logged 0 j cbj hj
  rw [handler_eq_of_mem kindOf _ covers_logged e _ hm hkindj]
  simp [Callback.logged]

theorem handler_runs_matching_callback_witness :
    handler id [on_string_empty, on_int_negative] (covers_pair _ _) A.Error.IntNegativeError =
      on_int_negative.run A.Error.IntNegativeError ∧
    handler id
        (logged_from 0
          [{ kind := A.Error.StringEmptyError, run := fun _ log => log },
            { kind := A.Error.IntNegativeError, run := fun _ log => log }])
        (fun e => by cases e <;> rfl) A.Error.IntNegativeError [] =
      (fun _ log => log) A.Error.IntNegativeError ([] ++ [1]) ∧
    handler id
        [({ kind := A.Error.StringEmptyError, run := on_string_empty.run } :
            Callback A.Error A.Error (Flags → Flags)),
          { kind := A.Error.IntNegativeError, run := on_int_negative.run }]
        (covers_pair _ _) A.Error.StringEmptyError =
      on_string_empty.run A.Error.StringEmptyError ∧
    handler id
        [({ kind := A.Error.StringEmptyError, run := on_string_empty.run } :
            Callback A.Error A.Error (Flags → Flags)),
          { kind := A.Error.IntNegativeError, run := on_int_negative.run }]
        (covers_pair _ _) A.Error.IntNegativeError =
      on_int_negative.run A.Error.IntNegativeError :=
  handler_runs_matching_callback id [on_string_empty, on_int_negative] (covers_pair _ _)
    A.Error.IntNegativeError on_int_negative (by simp) rfl
    [{ kind := A.Error.StringEmptyError, run := fun _ log => log },
      { kind := A.Error.IntNegativeError, run := fun _ log => log }]
    (fun e => by cases e <;> rfl) 1
    { kind := A.Error.IntNegativeError, run := fun _ log => log } rfl rfl []
    on_string_empty.run on_int_negative.run (covers_pair _ _)

/-! ## Order of the callbacks of a handler -/

theorem matching_perm {K E : Type} {R : Type r} [DecidableEq K] (kindOf : E → K)
    {cbs cbs' : List (Callback K E R)} (perm : cbs.Perm cbs') (e : E) :
    (matching kindOf cbs e).Perm (matching kindOf cbs' e) :=
  List.Perm.filter _ perm

theorem covers_of_perm {K E : Type} {R : Type r} [DecidableEq K] (kindOf : E → K)
    {cbs cbs' : List (Callback K E R)} (perm : cbs.Perm cbs') (covers : Covers kindOf cbs) :
    Covers kindOf cbs' :=
  fun e => ((matching_perm kindOf perm e).length_eq).symm.trans (covers e)

theorem exists_matching_callback {K E : Type} {R : Type r} [DecidableEq K] (kindOf : E → K)
    (cbs : List (Callback K E R)) (covers : Covers kindOf cbs) (e : E) :
    ∃ cb, cb ∈ cbs ∧ cb.kind = kindOf e := by
  obtain ⟨cb, hcb⟩ := List.length_eq_one.1 (covers e)
  have hm : cb ∈ matching kindOf cbs e := by rw [hcb]; exact List.mem_singleton.2 rfl
  have h := List.mem_filter.1 hm
  exact ⟨cb, h.1, by simpa using h.2⟩

theorem handler_perm {K E : Type} {R : Type r} [DecidableEq K] (kindOf : E → K)
    {cbs cbs' : List (Callback K E R)} (perm : cbs.Perm cbs') (covers : Covers kindOf cbs)
    (covers' : Covers kindOf cbs') (e : E) :
    handler kindOf cbs covers e = handler kindOf cbs' covers' e := by
  obtain ⟨cb, hmem, hkind⟩ := exists_matching_callback kindOf cbs covers e
  rw [handler_eq_of_mem kindOf cbs covers e cb hmem hkind,
    handler_eq_of_mem kindOf cbs' covers' e cb (perm.mem_iff.1 hmem) hkind]

theorem kinds_distinct_of_covers {K E : Type} {R : Type r} [DecidableEq K] (kindOf : E → K)
    (cb1 cb2 : Callback K E R) (covers : Covers kindOf [cb1, cb2]) (e : E) :
    cb1.kind ≠ cb2.kind := by
  intro h
  have hc := covers e
  by_cases h1 : cb1.kind = kindOf e
  · have h2 : cb2.kind = kindOf e := h ▸ h1
    simp [matching, h1, h2] at hc
  · have h2 : ¬ cb2.kind = kindOf e := fun h2 => h1 (h.trans h2)
    simp [matching, h1, h2] at hc

/-- C11: the order of the callbacks of a handler is irrelevant.  For an error type
with any number of kinds, a handler built from any permutation of the callbacks returns
the same result on every error value.  In particular, for a pair of callbacks over any
error type of its own, `handler(cb1, cb2)(e) = handler(cb2, cb1)(e)`, where the coverage
obligation on the pair already makes the two kinds distinct and `e` of one of them.  The
two handlers of the test, which register the same callbacks in opposite orders, are the
same function. -/
theorem handler_order_irrelevant {K E : Type} {R : Type r} [DecidableEq K] (kindOf : E → K)
    (cbs cbs' : List (Callback K E R)) (perm : cbs.Perm cbs') (covers : Covers kindOf cbs)
    (covers' : Covers kindOf cbs') (e : E)
    {K2 E2 : Type} {R2 : Type u} [DecidableEq K2] (kindOf2 : E2 → K2)
    (cb1 cb2 : Callback K2 E2 R2) (covers12 : Covers kindOf2 [cb1, cb2])
    (covers21 : Covers kindOf2 [cb2, cb1]) (e2 : E2) :
    handler kindOf cbs covers e = handler kindOf cbs' covers' e ∧
    handler kindOf2 [cb1, cb2] covers12 e2 = handler kindOf2 [cb2, cb1] covers21 e2 ∧
    cb1.kind ≠ cb2.kind ∧
    (cb1.kind = kindOf2 e2 ∨ cb2.kind = kindOf2 e2) ∧
    handler_first = handler_second := by
  refine ⟨handler_perm kindOf perm covers covers' e,
    handler_perm kindOf2 (List.Perm.swap cb2 cb1 []) covers12 covers21 e2,
    kinds_distinct_of_covers kindOf2 cb1 cb2 covers12 e2, ?_, ?_⟩
  · obtain ⟨cb, hmem, hkind⟩ := exists_matching_callback kindOf2 [cb1, cb2] covers12 e2
    simp only [List.mem_cons, List.mem_singleton, List.not_mem_nil, or_false] at hmem
    rcases hmem with h | h
    · exact Or.inl (h ▸ hkind)
    · exact Or.inr (h ▸ hkind)
  · funext e'
    exact handler_perm id (List.Perm.swap _ _ []) _ _ e'

theorem handler_order_irrelevant_witness :
    handler id
        [({ kind := 0, run := fun _ => 10 } : Callback (Fin 3) (Fin 3) Nat),
          { kind := 1, run := fun _ => 11 }, { kind := 2, run := fun _ => 12 }]
        (fun e => by fin_cases e <;> rfl) 2 =
      handler id
        [({ kind := 2, run := fun _ => 12 } : Callback (Fin 3) (Fin 3) Nat),
          { kind := 0, run := fun _ => 10 }, { kind := 1, run := fun _ => 11 }]
        (fun e => by fin_cases e <;> rfl) 2 ∧
    handler id [on_string_empty, on_int_negative] (fun e => by cases e <;> rfl)
        A.Error.IntNegativeError =
      handler id [on_int_negative, on_string_empty] (fun e => by cases e <;> rfl)
        A.Error.IntNegativeError ∧
    on_string_empty.kind ≠ on_int_negative.kind ∧
    (on_string_empty.kind = id A.Error.IntNegativeError ∨
      on_int_negative.kind = id A.Error.IntNegativeError) ∧
    handler_first = handler_second :=
  handler_order_irrelevant id
    [({ kind := 0, run := fun _ => 10 } : Callback (Fin 3) (Fin 3) Nat),
      { kind := 1, run := fun _ => 11 }, { kind := 2, run := fun _ => 12 }]
    [({ kind := 2, run := fun _ => 12 } : Callback (Fin 3) (Fin 3) Nat),
      { kind := 0, run := fun _ => 10 }, { kind := 1, run := fun _ => 11 }]
    ((List.Perm.cons _ (List.Perm.swap _ _ [])).trans (List.Perm.swap _ _ _))
    (fun e => by fin_cases e <;> rfl) (fun e => by fin_cases e <;> rfl) 2
    id on_string_empty on_int_negative
    (fun e => by cases e <;> rfl) (fun e => by cases e <;> rfl) A.Error.IntNegativeError

/-! ## The variant helper -/

theorem variant_A_cases (s : String) (n : Int) :
    VariantHelper.variant A.factory (s, n) =
      (if s = "" then Variant.error A.Error.StringEmptyError
       else if n < 0 then Variant.error A.Error.IntNegativeError
       else Variant.value { a_string := s, an_int := n }) := by
  have unfold1 : VariantHelper.variant A.factory (s, n) =
      A.factory (fun b => Variant.value b.construct) (fun error => Variant.error error)
        (s, n) := rfl
  rw [unfold1, A_factory_cases]
  rfl

/-- C12: `VariantHelper<T>::variant` flattens the two continuations into one tagged
union.  For any factory, on arguments where it calls `on_success` with builder `b` the
result is the `T` alternative holding `b.construct()`; for any factory, of the same type
or another, on arguments where it calls `on_fail` with `e` the result is the error
alternative holding `e`.  For `T = A` the result holds
an `A` with fields `(s, n)` exactly when `s` is non-empty and `n >= 0`, holds
`StringEmptyError` exactly when `s` is empty, and holds `IntNegativeError` exactly when
`s` is non-empty and `n < 0`. -/
theorem variant_flattens_outcome {CArgs T E Args : Type} {CArgs' T' E' Args' : Type}
    (T_factory : (Builder (CArgs → T) CArgs → Variant T E) → (E → Variant T E) → Args →
      Variant T E)
    (args_ok : Args) (b : Builder (CArgs → T) CArgs)
    (succeeds : (builder T_factory args_ok).Succeeds b)
    (T_factory' : (Builder (CArgs' → T') CArgs' → Variant T' E') → (E' → Variant T' E') →
      Args' → Variant T' E')
    (args_bad : Args') (e : E')
    (fails : (builder T_factory' args_bad).Fails e) (s : String) (n : Int) :
    VariantHelper.variant T_factory args_ok = Variant.value b.construct ∧
    VariantHelper.variant T_factory' args_bad = Variant.error e ∧
    VariantHelper.variant A.factory (s, n) =
      (if s = "" then Variant.error A.Error.StringEmptyError
       else if n < 0 then Variant.error A.Error.IntNegativeError
       else Variant.value { a_string := s, an_int := n }) ∧
    (VariantHelper.variant A.factory (s, n) = Variant.value { a_string := s, an_int := n } ↔
      (s ≠ "" ∧ 0 ≤ n)) ∧
    ((∃ a, VariantHelper.variant A.factory (s, n) = Variant.value a) ↔ (s ≠ "" ∧ 0 ≤ n)) ∧
    (VariantHelper.variant A.factory (s, n) = Variant.error A.Error.StringEmptyError ↔
      s = "") ∧
    (VariantHelper.variant A.factory (s, n) = Variant.error A.Error.IntNegativeError ↔
      (s ≠ "" ∧ n < 0)) := by
  refine ⟨succeeds _ _, fails _ _, variant_A_cases s n, ?_, ?_, ?_, ?_⟩
  all_goals
    rw [variant_A_cases]
    by_cases hs : s = ""
    · simp [hs]
    · by_cases hn : n < 0
      · simp [hs, hn]
      · simp [hs, hn, not_lt.mp hn]

theorem variant_flattens_outcome_witness :
    VariantHelper.variant A.factory ("abc", 42) =
      Variant.value (builder A.constructor ("abc", 42)).construct ∧
    VariantHelper.variant A.factory ("", 123) = Variant.error A.Error.StringEmptyError ∧
    VariantHelper.variant A.factory ("abc", -42) =
      (if "abc" = "" then Variant.error A.Error.StringEmptyError
       else if (-42 : Int) < 0 then Variant.error A.Error.IntNegativeError
       else Variant.value { a_string := "abc", an_int := -42 }) ∧
    (VariantHelper.variant A.factory ("abc", -42) =
        Variant.value { a_string := "abc", an_int := -42 } ↔
      ("abc" ≠ "" ∧ 0 ≤ (-42 : Int))) ∧
    ((∃ a, VariantHelper.variant A.factory ("abc", -42) = Variant.value a) ↔
      ("abc" ≠ "" ∧ 0 ≤ (-42 : Int))) ∧
    (VariantHelper.variant A.factory ("abc", -42) =
        Variant.error A.Error.StringEmptyError ↔ "abc" = "") ∧
    (VariantHelper.variant A.factory ("abc", -42) =
        Variant.error A.Error.IntNegativeError ↔ ("abc" ≠ "" ∧ (-42 : Int) < 0)) :=
  variant_flattens_outcome A.factory ("abc", 42) (builder A.constructor ("abc", 42))
    (A_child_succeeds "abc" 42 (by decide) (by decide))
    A.factory ("", 123) A.Error.StringEmptyError
    (A_child_fails_empty "" 123 rfl) "abc" (-42)

/-! ## The invariant of a delivered `A` -/

theorem A_factory_delivered {s : String} {n : Int} {b : ABuilder}
    (delivered : (A.factory Outcome.success Outcome.failure (s, n) :
      Outcome ABuilder A.Error) = Outcome.success b) :
    s ≠ "" ∧ 0 ≤ n ∧ b = builder A.constructor (s, n) := by
  rw [A_factory_cases] at delivered
  by_cases hs : s = ""
  · rw [if_pos hs] at delivered; cases delivered
  · rw [if_neg hs] at delivered
    by_cases hn : n < 0
    · rw [if_pos hn] at delivered; cases delivered
    · rw [if_neg hn] at delivered
      exact ⟨hs, not_lt.mp hn, (Outcome.success.inj delivered).symm⟩

theorem multifail_delivered {s1 : String} {n1 : Int} {s2 : String} {n2 : Int} {a b : Int}
    {agg : AggregateBuilder}
    (delivered : (multifail Outcome.success Outcome.failure (s1, n1) (s2, n2) (a, b) :
      Outcome AggregateBuilder A.Error) = Outcome.success agg) :
    s1 ≠ "" ∧ 0 ≤ n1 ∧ s2 ≠ "" ∧ 0 ≤ n2 ∧
    agg = builder Aggregate.constructor
      (HList.cons (builder A.constructor (s1, n1))
        (HList.cons (builder A.constructor (s2, n2))
          (HList.cons (builder B.braced (a, b)) HList.nil))) := by
  rw [multifail_cases] at delivered
  by_cases h1 : s1 = ""
  · rw [if_pos h1] at delivered; cases delivered
  · rw [if_neg h1] at delivered
    by_cases hn1 : n1 < 0
    · rw [if_pos hn1] at delivered; cases delivered
    · rw [if_neg hn1] at delivered
      by_cases h2 : s2 = ""
      · rw [if_pos h2] at delivered; cases delivered
      · rw [if_neg h2] at delivered
        by_cases hn2 : n2 < 0
        · rw [if_pos hn2] at delivered; cases delivered
        · rw [if_neg hn2] at delivered
          exact ⟨h1, not_lt.mp hn1, h2, not_lt.mp hn2,
            (Outcome.success.inj delivered).symm⟩

/-- C13: every `A` delivered through `A::factory()` satisfies the validated
preconditions.  If the factory on `(s, n)` calls `on_success` with builder `b`, then
`b.construct()` has a non-empty `get_a_string()` and `get_an_int() >= 0`.  If the
construction of an `Aggregate<A, A, B>` calls `on_success` with builder `agg`, then both
`A` members of `agg.construct()` satisfy them too. -/
theorem delivered_A_is_valid (s : String) (n : Int) (b : ABuilder)
    (delivered : (A.factory Outcome.success Outcome.failure (s, n) :
      Outcome ABuilder A.Error) = Outcome.success b)
    (t_args u_args : String × Int) (v_args : Int × Int) (agg : AggregateBuilder)
    (delivered_agg : (multifail Outcome.success Outcome.failure t_args u_args v_args :
      Outcome AggregateBuilder A.Error) = Outcome.success agg) :
    (b.construct.get_a_string ≠ "" ∧ 0 ≤ b.construct.get_an_int) ∧
    (agg.construct.get_t.get_a_string ≠ "" ∧ 0 ≤ agg.construct.get_t.get_an_int) ∧
    (agg.construct.get_u.get_a_string ≠ "" ∧ 0 ≤ agg.construct.get_u.get_an_int) := by
  obtain ⟨hs, hn, hb⟩ := A_factory_delivered delivered
  obtain ⟨s1, n1⟩ := t_args
  obtain ⟨s2, n2⟩ := u_args
  obtain ⟨a, c⟩ := v_args
  obtain ⟨h1, hn1, h2, hn2, hagg⟩ := multifail_delivered delivered_agg
  subst hb
  subst hagg
  exact ⟨⟨hs, hn⟩, ⟨h1, hn1⟩, ⟨h2, hn2⟩⟩

theorem delivered_A_is_valid_witness :
    ((builder A.constructor ("abc", 42)).construct.get_a_string ≠ "" ∧
      0 ≤ (builder A.constructor ("abc", 42)).construct.get_an_int) ∧
    ((builder (Aggregate.constructor : _ → Aggregate A A B)
        (HList.cons (builder A.constructor ("abc", 42))
          (HList.cons (builder A.constructor ("def", 123))
            (HList.cons (builder B.braced (5, 6)) HList.nil)))).construct.get_t.get_a_string
        ≠ "" ∧
      0 ≤ (builder (Aggregate.constructor : _ → Aggregate A A B)
        (HList.cons (builder A.constructor ("abc", 42))
          (HList.cons (builder A.constructor ("def", 123))
            (HList.cons (builder B.braced (5, 6)) HList.nil)))).construct.get_t.get_an_int) ∧
    ((builder (Aggregate.constructor : _ → Aggregate A A B)
        (HList.cons (builder A.constructor ("abc", 42))
          (HList.cons (builder A.constructor ("def", 123))
            (HList.cons (builder B.braced (5, 6)) HList.nil)))).construct.get_u.get_a_string
        ≠ "" ∧
      0 ≤ (builder (Aggregate.constructor : _ → Aggregate A A B)
        (HList.cons (builder A.constructor ("abc", 42))
          (HList.cons (builder A.constructor ("def", 123))
            (HList.cons (builder B.braced (5, 6)) HList.nil)))).construct.get_u.get_an_int) :=
  delivered_A_is_valid "abc" 42 (builder A.constructor ("abc", 42)) rfl
    ("abc", 42) ("def", 123) (5, 6)
    (builder Aggregate.constructor
      (HList.cons (builder A.constructor ("abc", 42))
        (HList.cons (builder A.constructor ("def", 123))
          (HList.cons (builder B.braced (5, 6)) HList.nil))))
    rfl

/-! ## Builders of factories -/

/-- C14: `BuilderHelper<T>::builder(args...)` is the builder of `T::factory()` on
`args` and nothing more, under any finalization of builders; with the two-continuation
finalization, `builder(args...).construct(on_success, on_fail)` is the dispatch
`T::factory()(on_success, on_fail, args...)`.  For `T = A` this is `A::factory()` applied
to the continuations and `(s, n)`. -/
theorem BuilderHelper_builder_is_dispatch {S : Type u} {F : Type v} {Args : Type w}
    {R : Type r} {Q : Type u} (T_factory : S → F → Args → R) (args : Args)
    (on_success : S) (on_fail : F) (finalize : Builder (S → F → Args → R) Args → Q)
    (on_success' : ABuilder → R) (on_fail' : A.Error → R) (s : String) (n : Int) :
    BuilderHelper.builder T_factory args = builder T_factory args ∧
    finalize (BuilderHelper.builder T_factory args) = finalize (builder T_factory args) ∧
    (BuilderHelper.builder T_factory args).construct2 on_success on_fail =
      T_factory on_success on_fail args ∧
    (BuilderHelper.builder A.factory (s, n)).construct2 on_success' on_fail' =
      A.factory on_success' on_fail' (s, n) :=
  ⟨rfl, rfl, rfl, rfl⟩

/-- C15: a factory returns the value returned by the continuation it calls, unchanged.
`Factory<T>` returns the result of its `on_success` call; `A::factory()` returns the
result of `on_fail(error)` on invalid arguments and of `on_success(builder)` on valid
ones.  Neither looks at that value: applying any function `g` to the result of the
factory is the same as running the factory with `g` applied inside both
continuations. -/
theorem factory_returns_continuation_result {Args T : Type} {F : Type v} {R : Type r}
    {Q : Type u} (braced : Args → T) (on_success : Builder (Args → T) Args → R) (on_fail : F)
    (args : Args) (on_success' : ABuilder → R) (on_fail' : A.Error → R) (s : String)
    (n : Int) (g : R → Q) :
    Factory braced on_success on_fail args = on_success (builder braced args) ∧
    g (Factory braced on_success on_fail args) =
      Factory braced (fun b => g (on_success b)) on_fail args ∧
    A.factory on_success' on_fail' (s, n) =
      (if s = "" ∨ n < 0 then
        on_fail' (if s = "" then A.Error.StringEmptyError else A.Error.IntNegativeError)
       else on_success' (builder A.constructor (s, n))) ∧
    g (A.factory on_success' on_fail' (s, n)) =
      A.factory (fun b => g (on_success' b)) (fun e => g (on_fail' e)) (s, n) := by
  refine ⟨rfl, rfl, ?_, ?_⟩
  · rw [A_factory_cases]
    by_cases hs : s = ""
    · simp [hs]
    · by_cases hn : n < 0
      · simp [hs, hn]
      · simp [hs, hn]
  · rw [A_factory_cases, A_factory_cases]
    by_cases hs : s = ""
    · simp [hs]
    · by_cases hn : n < 0
      · simp [hs, hn]
      · simp [hs, hn]

/-- C16: `wrapper<T>(args...)` is the builder of the trivial factory on `args`, so its
two-continuation finalization is that of `builder(factory<T>, args...)`: it returns
`on_success(b)` for a builder `b` with `b.construct() = T{args...}`, whatever `on_fail`
is, and with counting continuations it makes one `on_success` call and no `on_fail`
call. -/
theorem wrapper_is_trivial_builder {Args T E : Type} {F : Type v} {F' : Type w} {R : Type r}
    (braced : Args → T) (args : Args) (on_success : Builder (Args → T) Args → R)
    (on_fail : F) (on_fail' : F') (counted : E → R) (calls : Calls) :
    (wrapper braced args : Builder ((Builder (Args → T) Args → R) → F → Args → R) Args) =
      builder (factory braced) args ∧
    (wrapper braced args).construct2 on_success on_fail =
      (builder (factory braced) args).construct2 on_success on_fail ∧
    (wrapper braced args).construct2 on_success on_fail = on_success (builder braced args) ∧
    (builder braced args).construct = braced args ∧
    (wrapper braced args).construct2 on_success on_fail =
      (wrapper braced args).construct2 on_success on_fail' ∧
    (wrapper braced args).construct2 (counted_success on_success) (counted_fail counted)
        calls =
      (on_success (builder braced args),
        { on_success := calls.on_success + 1, on_fail := calls.on_fail }) :=
  ⟨rfl, rfl, rfl, rfl, rfl, rfl⟩

end Piecewise
